import Mathlib

/-!
Verification of the stats-caching / refresh bridge and the presentation
helpers of the nucypher-monitor dashboard (src/monitor/dashboard.py and
src/monitor/components.py), as a shallow embedding in Lean.

The crawler payload and its JSON serialization are external collaborators
(Python stdlib `json`, the crawler's HTTP body); they are modelled
abstractly: a payload is opaque, and a JSON text is either the
serialization of a payload or malformed.
-/

/-- Modelled from the spec: the crawler metrics payload is an opaque,
immutable structured document; its internal keys play no role in the
cache-bridge claims. -/
structure Payload where
  data : String
deriving DecidableEq

/-- Modelled from the spec: a JSON text is either the serialization of a
payload (what `json.dumps` produces) or malformed text (what makes
`json.loads` / `response.json()` raise). The Python `json` library is an
external collaborator. -/
inductive JsonText where
  | wellFormed (p : Payload)
  | malformed (raw : String)
deriving DecidableEq

/-- Modelled from the spec: Python `json.dumps` (external library). -/
def json_dumps (p : Payload) : JsonText := JsonText.wellFormed p

/-- Modelled from the spec: Python `json.loads` / `response.json()`
(external library); `none` stands for a raised decode error. -/
def json_loads (t : JsonText) : Option Payload :=
  match t with
  | JsonText.wellFormed p => some p
  | JsonText.malformed _ => none

/-- A network-level failure of `requests.get` (external transport). -/
inductive NetError where
  | connection
  | timeout
deriving DecidableEq

/-- An exception escaping `make_request`: either `requests.get` raised, or
the body was not JSON and `response.json()` raised. -/
inductive FetchError where
  | net (e : NetError)
  | nonJson
deriving DecidableEq

/-- The upstream environment's answer to one HTTP request to the crawler's
metrics endpoint: a network failure, or a response body. -/
inductive UpstreamResult where
  | netFail (e : NetError)
  | body (t : JsonText)
deriving DecidableEq

/-- `Dashboard.make_request` (dashboard.py lines 85-89):
`response = requests.get(url); payload = response.json(); return payload`.
Exceptions are modelled as `Except.error`; the upstream answer for this
particular call is the explicit argument `r`. -/
def make_request (r : UpstreamResult) : Except FetchError Payload :=
  match r with
  | UpstreamResult.netFail e => Except.error (FetchError.net e)
  | UpstreamResult.body t =>
      match json_loads t with
      | some p => Except.ok p
      | none => Except.error FetchError.nonJson

/-- `Dashboard.verify_cached_stats` (dashboard.py lines 91-98): if
`cached_stats is None`, fetch directly from the crawler via
`make_request`; otherwise return `json.loads(cached_stats)`. The function
only returns data; it performs no write. -/
def verify_cached_stats (r : UpstreamResult) (cached_stats : Option JsonText) :
    Except FetchError Payload :=
  match cached_stats with
  | none => make_request r
  | some t =>
      match json_loads t with
      | some p => Except.ok p
      | none => Except.error FetchError.nonJson

/-- Number of `make_request` invocations performed by one
`verify_cached_stats` call: one on the cold-start branch
(`cached_stats is None`, dashboard.py line 95), zero on the cached branch
(line 97). -/
def verify_fetch_count (cached_stats : Option JsonText) : Nat :=
  match cached_stats with
  | none => 1
  | some _ => 0

/-- One consumer callback reading the snapshot during a trigger. Every
consumer callback declares `State('cached-crawler-stats', 'children')`
(read-only) and outputs only its own widget (dashboard.py lines 197-323),
so the store after the callback equals the store before; the returned data
is `verify_cached_stats`. -/
def consumer_read (r : UpstreamResult) (store : Option JsonText) :
    Except FetchError Payload × Option JsonText :=
  (verify_cached_stats r store, store)

/-- `update_cached_stats` (dashboard.py lines 192-195):
`payload = self.make_request(); return json.dumps(payload)`. The body
contains no try/except and no `self.log` call, so the second component
(the log messages this callback emits) is empty on both paths and any
exception from `make_request` propagates. -/
def update_cached_stats (r : UpstreamResult) :
    Except FetchError JsonText × List String :=
  match make_request r with
  | Except.ok payload => (Except.ok (json_dumps payload), [])
  | Except.error e => (Except.error e, [])

/-- Modelled from the spec: the Dash framework replaces the
`cached-crawler-stats` children only with a successful callback output; a
callback that raises leaves the stored value unchanged (spec 4.2: on
failure the previous Snapshot is retained). -/
def refresh_step (r : UpstreamResult) (store : Option JsonText) : Option JsonText :=
  match (update_cached_stats r).1 with
  | Except.ok out => some out
  | Except.error _ => store

/-- A sequence of consumer snapshot reads against the store, threading the
store through `consumer_read` and counting the `make_request` invocations
they perform. -/
def run_consumer_reads (rs : List UpstreamResult) (store : Option JsonText) :
    Nat × Option JsonText :=
  match rs with
  | [] => (0, store)
  | r :: rest =>
      let step := consumer_read r store
      let tail := run_consumer_reads rest step.2
      (verify_fetch_count store + tail.1, tail.2)

/-- C1 counterexample: on a cold start (store is `none`) a consumer read
performs the synchronous fetch and returns the payload, but the store
after the read is still `none` — the fetched payload is not stored, so a
later caller can still observe an absent Snapshot. -/
theorem verify_cached_stats_cold_start_no_store :
    (consumer_read (UpstreamResult.body (json_dumps (Payload.mk "p"))) none).2 = none ∧
    (consumer_read (UpstreamResult.body (json_dumps (Payload.mk "p"))) none).2 ≠
      some (json_dumps (Payload.mk "p")) ∧
    (consumer_read (UpstreamResult.body (json_dumps (Payload.mk "p"))) none).1 =
      Except.ok (Payload.mk "p") := by
  refine ⟨rfl, ?_, rfl⟩
  intro h
  simp [consumer_read] at h

/-- C1 amended: on a cold start `verify_cached_stats` performs a
synchronous fetch and returns its result, but does not store it: the store
is unchanged (still absent) after the read, and the cold-start branch
performs exactly one fetch per caller. -/
theorem verify_cached_stats_cold_start_fetch_only (r : UpstreamResult) :
    (consumer_read r none).1 = make_request r ∧
    (consumer_read r none).2 = none ∧
    verify_fetch_count none = 1 :=
  ⟨rfl, rfl, rfl⟩

/-- C2 counterexample: for a concrete failing fetch, `update_cached_stats`
propagates the exception (`Except.error`, not a caught result) and emits
no log message — contradicting "logs the failure, and raises no
exception". -/
theorem update_cached_stats_failure_unlogged_raises :
    (update_cached_stats (UpstreamResult.netFail NetError.connection)).1 =
      Except.error (FetchError.net NetError.connection) ∧
    (update_cached_stats (UpstreamResult.netFail NetError.connection)).2 = [] :=
  ⟨rfl, rfl⟩

/-- C2 amended: when the upstream fetch fails, `update_cached_stats`
produces no new store value, so the stored Snapshot is retained (the
framework keeps the previous children when a callback raises) and
subsequent `verify_cached_stats` reads return the last successfully
stored payload; however the code emits no log message, and the exception
propagates out of `update_cached_stats` rather than being caught. -/
theorem update_cached_stats_failure_retains_snapshot
    (r : UpstreamResult) (store : Option JsonText) (e : FetchError)
    (h : make_request r = Except.error e) :
    (update_cached_stats r).1 = Except.error e ∧
    (update_cached_stats r).2 = [] ∧
    refresh_step r store = store ∧
    (∀ (p : Payload) (r2 : UpstreamResult), store = some (json_dumps p) →
      verify_cached_stats r2 (refresh_step r store) = Except.ok p) := by
  refine ⟨?_, ?_, ?_, ?_⟩
  · simp [update_cached_stats, h]
  · simp [update_cached_stats, h]
  · simp [refresh_step, update_cached_stats, h]
  · intro p r2 hs
    simp [refresh_step, update_cached_stats, h, hs, verify_cached_stats,
      json_loads, json_dumps]

/-- Witness for C2: a concrete failed refresh over a concrete stored
snapshot retains it, and a subsequent read returns it. -/
theorem update_cached_stats_failure_retains_snapshot_witness :
    (update_cached_stats (UpstreamResult.netFail NetError.timeout)).1 =
      Except.error (FetchError.net NetError.timeout) ∧
    (update_cached_stats (UpstreamResult.netFail NetError.timeout)).2 = [] ∧
    refresh_step (UpstreamResult.netFail NetError.timeout)
      (some (json_dumps (Payload.mk "last"))) = some (json_dumps (Payload.mk "last")) ∧
    verify_cached_stats (UpstreamResult.netFail NetError.timeout)
      (refresh_step (UpstreamResult.netFail NetError.timeout)
        (some (json_dumps (Payload.mk "last")))) = Except.ok (Payload.mk "last") := by
  have h := update_cached_stats_failure_retains_snapshot
    (UpstreamResult.netFail NetError.timeout)
    (some (json_dumps (Payload.mk "last")))
    (FetchError.net NetError.timeout) rfl
  exact ⟨h.1, h.2.1, h.2.2.1,
    h.2.2.2 (Payload.mk "last") (UpstreamResult.netFail NetError.timeout) rfl⟩

/-- C5 counterexample: during cold start (store absent) two consumer reads
in the same cycle each perform their own fetch, and can observe different
payloads. -/
theorem cold_start_reads_can_differ :
    (consumer_read (UpstreamResult.body (json_dumps (Payload.mk "p1"))) none).1 ≠
    (consumer_read (UpstreamResult.body (json_dumps (Payload.mk "p2"))) none).1 := by
  intro h
  simp [consumer_read, verify_cached_stats, make_request, json_loads, json_dumps] at h

/-- C5 amended: once a Snapshot is stored, every consumer read within the
same refresh cycle returns the same value (the upstream environment is
not consulted on the cached branch); the cold-start clause of the claim
fails because cold-start readers fetch independently. -/
theorem same_cycle_reads_equal (t : JsonText) (r1 r2 : UpstreamResult) :
    (consumer_read r1 (some t)).1 = (consumer_read r2 (some t)).1 := rfl

/-- C6 counterexample: two concurrent first-time snapshot requests before
the first refresh both take the cold-start branch, performing two fetches
in total — not at most one. -/
theorem two_cold_start_requests_two_fetches :
    (run_consumer_reads
      [UpstreamResult.body (json_dumps (Payload.mk "p")),
       UpstreamResult.body (json_dumps (Payload.mk "p"))] none).1 = 2 ∧
    ¬ ((run_consumer_reads
      [UpstreamResult.body (json_dumps (Payload.mk "p")),
       UpstreamResult.body (json_dumps (Payload.mk "p"))] none).1 ≤ 1) := by
  constructor
  · rfl
  · decide

/-- C6 amended: there is no single-flight mechanism: every first-time
request before the first refresh performs its own upstream fetch, so `n`
concurrent cold-start requests perform exactly `n` fetches, and the store
remains absent throughout. -/
theorem cold_start_requests_fetch_each (rs : List UpstreamResult) :
    (run_consumer_reads rs none).1 = rs.length ∧
    (run_consumer_reads rs none).2 = none := by
  induction rs with
  | nil => exact ⟨rfl, rfl⟩
  | cons r rest ih =>
      constructor
      · simp [run_consumer_reads, consumer_read, verify_fetch_count, ih.1,
          Nat.add_comm]
      · simp [run_consumer_reads, consumer_read, ih.2]

/-!
Presentation helpers from src/monitor/components.py. The Dash html objects
are modelled by records carrying exactly the data the source puts into
them; rendering frameworks are external collaborators.
-/

/-- One entry of the `prev_states` payload (components.py `state_detail`
reads keys symbol, color_hex, nickname, updated). -/
structure StateDict where
  symbol : String
  color_hex : String
  nickname : String
  updated : String
deriving DecidableEq

/-- The html.Div produced by `state_detail` (components.py lines 18-32):
symbol icon with border color, nickname span with title, an optional
`(*Current)` span appended exactly when `current_state`, the className and
the background color. -/
structure StateDetail where
  symbol : String
  border_color : String
  nickname : String
  title : String
  current_annotated : Bool
  className : String
  background_color : String
deriving DecidableEq

/-- `state_detail` (components.py lines 18-32). -/
def state_detail (state : StateDict) (current_state : Bool) : StateDetail :=
  { symbol := state.symbol
    border_color := state.color_hex
    nickname := state.nickname
    title := state.updated
    current_annotated := current_state
    className := if current_state then "state state-current" else "state"
    background_color := state.color_hex }

/-- The loop body of `_states_table` (components.py lines 36-40):
`for idx, state_dict in enumerate(states): current_state = (idx == 0)`,
threading the enumeration index. -/
def states_table_go (idx : Nat) (states : List StateDict) : List StateDetail :=
  match states with
  | [] => []
  | s :: rest => state_detail s (idx == 0) :: states_table_go (idx + 1) rest

/-- `_states_table` (components.py lines 35-41): one cell per state, in
order, with the cell at enumeration index 0 marked current. -/
def states_table (states : List StateDict) : List StateDetail :=
  states_table_go 0 states

/-- The html.Div produced by `previous_states` (components.py lines
44-50): the heading and the states table. -/
structure PreviousStatesDiv where
  heading : String
  table : List StateDetail
deriving DecidableEq

/-- `previous_states` (components.py lines 44-50). -/
def previous_states (states : List StateDict) : PreviousStatesDiv :=
  { heading := "Previous States"
    table := states_table states }

/-- The `status` sub-dict of a node record (components.py
`generate_node_status_icon` reads keys status, color). -/
structure NodeStatus where
  status : String
  color : String
deriving DecidableEq

/-- The `fleet_state_icon` field: the sentinel `UNKNOWN_FLEET_STATE`
(constant_sorrow, external) or an icon list. -/
inductive FleetStateIcon where
  | unknown
  | icons (icon_list : String)
deriving DecidableEq

/-- One node record inside a Snapshot's `node_details` (the keys
components.py lines 67-98 read). -/
structure NodeInfo where
  nickname : String
  rest_url : String
  fleet_state_icon : FleetStateIcon
  staker_address : String
  last_seen : String
  timestamp : String
  status : NodeStatus
deriving DecidableEq

/-- The daq.Indicator produced by `generate_node_status_icon`
(components.py lines 53-64). -/
structure StatusIcon where
  color : String
  label : String
deriving DecidableEq

/-- `generate_node_status_icon` (components.py lines 53-64). -/
def generate_node_status_icon (status : NodeStatus) : StatusIcon :=
  { color := status.color
    label := status.status }

/-- The cell dict returned by `generate_node_table_components`
(components.py lines 91-98), one entry per column of
NODE_TABLE_COLUMNS. `fleet_state` is `none` when the div children list is
empty (the `UNKNOWN_FLEET_STATE` case). -/
structure NodeRowComponents where
  status : StatusIcon
  checksum_text : String
  checksum_href : String
  nickname : String
  nickname_href : String
  launched : String
  last_seen : String
  fleet_state : Option String
deriving DecidableEq

/-- `generate_node_table_components` (components.py lines 67-100). The
rfc3339 parse-and-prettify `MayaDT.from_rfc3339(...).slang_time()` is the
external maya library, passed as `parse`; `none` stands for a raised
`ParserError`, in which case the try/except at lines 85-88 keeps the raw
`last_seen` string. -/
def generate_node_table_components (parse : String → Option String)
    (node_info : NodeInfo) : NodeRowComponents :=
  { status := generate_node_status_icon node_info.status
    checksum_text := node_info.staker_address.take 10 ++ "..."
    checksum_href := "https://goerli.etherscan.io/address/" ++ node_info.staker_address
    nickname := node_info.nickname
    nickname_href := "https://" ++ node_info.rest_url ++ "/status"
    launched := node_info.timestamp
    last_seen :=
      match parse node_info.last_seen with
      | some slang => slang
      | none => node_info.last_seen
    fleet_state :=
      match node_info.fleet_state_icon with
      | FleetStateIcon.icons icon_list => some icon_list
      | FleetStateIcon.unknown => none }

/-- One html.Tr of the node table: the six cells (all cells are truthy Td
objects, so the `if cell` filter at components.py line 112 keeps every
column) and whether the row carries the teacher highlight style
(components.py lines 117-119). -/
structure NodeRow where
  cells : NodeRowComponents
  highlighted : Bool
deriving DecidableEq

/-- The loop body of `nodes_table` (components.py lines 105-121):
`for index, node_info in enumerate(nodes)`, highlighting exactly the row
whose enumeration index equals `teacher_index` (`index == teacher_index`
is false when `teacher_index` is None). -/
def nodes_table_go (parse : String → Option String) (teacher_index : Option Nat)
    (index : Nat) (nodes : List NodeInfo) : List NodeRow :=
  match nodes with
  | [] => []
  | node_info :: rest =>
      { cells := generate_node_table_components parse node_info
        highlighted := some index == teacher_index } ::
      nodes_table_go parse teacher_index (index + 1) rest

/-- `nodes_table` (components.py lines 103-130), data rows (the header row
is the constant NODE_TABLE_COLUMNS). -/
def nodes_table (parse : String → Option String) (nodes : List NodeInfo)
    (teacher_index : Option Nat) : List NodeRow :=
  nodes_table_go parse teacher_index 0 nodes

/-- The accumulator step of the `known_nodes` loop (components.py lines
136-141): skip falsy `node_data`; when the checksum equals
`teacher_checksum`, record `len(nodes)` (the length before appending) as
the teacher index; then append. -/
def known_nodes_step (teacher_checksum : Option String)
    (acc : List NodeInfo × Option Nat) (entry : String × Option NodeInfo) :
    List NodeInfo × Option Nat :=
  match entry.2 with
  | some node_data =>
      (acc.1 ++ [node_data],
       if some entry.1 = teacher_checksum then some acc.1.length else acc.2)
  | none => acc

/-- The node-collection loop of `known_nodes` (components.py lines
134-141), over the insertion-ordered `nodes_dict`. -/
def collect_nodes (nodes_dict : List (String × Option NodeInfo))
    (teacher_checksum : Option String) : List NodeInfo × Option Nat :=
  nodes_dict.foldl (known_nodes_step teacher_checksum) ([], none)

/-- The html.Div produced by `known_nodes` (components.py lines 143-153):
the `Known Nodes: {len(nodes_dict)}` heading count and the node table. -/
structure KnownNodesDiv where
  heading_count : Nat
  rows : List NodeRow
deriving DecidableEq

/-- `known_nodes` (components.py lines 133-154). -/
def known_nodes (parse : String → Option String)
    (nodes_dict : List (String × Option NodeInfo))
    (teacher_checksum : Option String) : KnownNodesDiv :=
  let collected := collect_nodes nodes_dict teacher_checksum
  { heading_count := nodes_dict.length
    rows := nodes_table parse collected.1 collected.2 }

/-- Helper: the tail of the states table (enumeration indices starting at
a positive index) renders every state unannotated, in order. -/
theorem states_table_go_pos (states : List StateDict) (idx : Nat) :
    states_table_go (idx + 1) states =
      states.map (fun t => state_detail t false) := by
  induction states generalizing idx with
  | nil => rfl
  | cons s rest ih =>
      simp [states_table_go, ih]

/-- C9: for every non-empty state list, `previous_states` (via
`_states_table`) marks exactly the first element as current — it alone
gets the `(*Current)` annotation and the `state state-current` class —
and renders the remaining states unannotated with class `state`, in list
order. -/
theorem previous_states_first_is_current (s : StateDict) (rest : List StateDict) :
    (previous_states (s :: rest)).table =
      state_detail s true :: rest.map (fun t => state_detail t false) ∧
    (state_detail s true).current_annotated = true ∧
    (state_detail s true).className = "state state-current" ∧
    (∀ t : StateDict, (state_detail t false).current_annotated = false ∧
      (state_detail t false).className = "state") := by
  refine ⟨?_, rfl, rfl, fun t => ⟨rfl, rfl⟩⟩
  simp [previous_states, states_table, states_table_go, states_table_go_pos]

/-- C7: for every node record whose `last_seen` does not parse as an
rfc3339 timestamp (the maya parser raises `ParserError`, modelled as
`parse ... = none`), `generate_node_table_components` still returns the
full cell dict, with the raw `last_seen` string in the Last Seen cell and
every other cell produced as usual. -/
theorem generate_node_table_components_raw_last_seen
    (parse : String → Option String) (node_info : NodeInfo)
    (h : parse node_info.last_seen = none) :
    generate_node_table_components parse node_info =
      { status := generate_node_status_icon node_info.status
        checksum_text := node_info.staker_address.take 10 ++ "..."
        checksum_href := "https://goerli.etherscan.io/address/" ++ node_info.staker_address
        nickname := node_info.nickname
        nickname_href := "https://" ++ node_info.rest_url ++ "/status"
        launched := node_info.timestamp
        last_seen := node_info.last_seen
        fleet_state :=
          match node_info.fleet_state_icon with
          | FleetStateIcon.icons icon_list => some icon_list
          | FleetStateIcon.unknown => none } := by
  simp [generate_node_table_components, h]

/-- A concrete node record used by witnesses. -/
def sampleNodeA : NodeInfo :=
  { nickname := "alice"
    rest_url := "1.2.3.4:9151"
    fleet_state_icon := FleetStateIcon.icons "iconA"
    staker_address := "0xAAAAAAAAAAAAAAAAAAAAAAAAAAAAAAAAAAAAAAAA"
    last_seen := "not-a-timestamp"
    timestamp := "2020-01-01T00:00:00Z"
    status := { status := "OK", color := "green" } }

/-- A second concrete node record used by witnesses. -/
def sampleNodeB : NodeInfo :=
  { nickname := "bob"
    rest_url := "5.6.7.8:9151"
    fleet_state_icon := FleetStateIcon.unknown
    staker_address := "0xBBBBBBBBBBBBBBBBBBBBBBBBBBBBBBBBBBBBBBBB"
    last_seen := "2020-02-02T00:00:00Z"
    timestamp := "2020-02-01T00:00:00Z"
    status := { status := "OK", color := "green" } }

/-- A third concrete node record used by witnesses. -/
def sampleNodeC : NodeInfo :=
  { nickname := "carol"
    rest_url := "9.10.11.12:9151"
    fleet_state_icon := FleetStateIcon.icons "iconC"
    staker_address := "0xCCCCCCCCCCCCCCCCCCCCCCCCCCCCCCCCCCCCCCCC"
    last_seen := "2020-03-03T00:00:00Z"
    timestamp := "2020-03-01T00:00:00Z"
    status := { status := "Idle", color := "yellow" } }

/-- Witness for C7: evaluated at a concrete node whose `last_seen` the
parser rejects. -/
theorem generate_node_table_components_raw_last_seen_witness :
    generate_node_table_components (fun _ => none) sampleNodeA =
      { status := generate_node_status_icon sampleNodeA.status
        checksum_text := sampleNodeA.staker_address.take 10 ++ "..."
        checksum_href := "https://goerli.etherscan.io/address/" ++ sampleNodeA.staker_address
        nickname := sampleNodeA.nickname
        nickname_href := "https://" ++ sampleNodeA.rest_url ++ "/status"
        launched := sampleNodeA.timestamp
        last_seen := sampleNodeA.last_seen
        fleet_state :=
          match sampleNodeA.fleet_state_icon with
          | FleetStateIcon.icons icon_list => some icon_list
          | FleetStateIcon.unknown => none } :=
  generate_node_table_components_raw_last_seen (fun _ => none) sampleNodeA rfl

/-- C3: for a `node_details` mapping holding truthy nodes A, B, C in that
insertion order and a `teacher_checksum` equal to B's key, `known_nodes`
renders the three rows in input order and highlights exactly the row for
B. -/
theorem known_nodes_highlights_teacher
    (parse : String → Option String) (kA kB kC : String) (a b c : NodeInfo)
    (hA : kA ≠ kB) (hC : kC ≠ kB) :
    (known_nodes parse [(kA, some a), (kB, some b), (kC, some c)] (some kB)).rows.map
        (fun r => r.cells) =
      [a, b, c].map (generate_node_table_components parse) ∧
    (known_nodes parse [(kA, some a), (kB, some b), (kC, some c)] (some kB)).rows.map
        (fun r => r.highlighted) =
      [false, true, false] := by
  have hcollect :
      collect_nodes [(kA, some a), (kB, some b), (kC, some c)] (some kB) =
        ([a, b, c], some 1) := by
    simp [collect_nodes, known_nodes_step, List.foldl, hA, hC]
  constructor
  · simp [known_nodes, hcollect, nodes_table, nodes_table_go]
  · simp [known_nodes, hcollect, nodes_table, nodes_table_go]

/-- Witness for C3: three concrete nodes with teacher key "b". -/
theorem known_nodes_highlights_teacher_witness :
    (known_nodes (fun _ => none)
        [("a", some sampleNodeA), ("b", some sampleNodeB), ("c", some sampleNodeC)]
        (some "b")).rows.map (fun r => r.cells) =
      [sampleNodeA, sampleNodeB, sampleNodeC].map
        (generate_node_table_components (fun _ => none)) ∧
    (known_nodes (fun _ => none)
        [("a", some sampleNodeA), ("b", some sampleNodeB), ("c", some sampleNodeC)]
        (some "b")).rows.map (fun r => r.highlighted) =
      [false, true, false] :=
  known_nodes_highlights_teacher (fun _ => none) "a" "b" "c"
    sampleNodeA sampleNodeB sampleNodeC (by decide) (by decide)

/-- Helper: the collected nodes are exactly the truthy values of the
mapping, in insertion order (foldl-accumulator form). -/
theorem collect_nodes_fst_aux (nodes_dict : List (String × Option NodeInfo))
    (teacher : Option String) (init : List NodeInfo × Option Nat) :
    (nodes_dict.foldl (known_nodes_step teacher) init).1 =
      init.1 ++ nodes_dict.filterMap (fun p => p.2) := by
  induction nodes_dict generalizing init with
  | nil => simp
  | cons entry rest ih =>
      cases h2 : entry.2 with
      | none => simp [List.foldl, known_nodes_step, h2, ih]
      | some nd => simp [List.foldl, known_nodes_step, h2, ih]

/-- Helper: when every entry keyed by the teacher checksum is falsy, the
loop never assigns a teacher index. -/
theorem collect_nodes_snd_aux (nodes_dict : List (String × Option NodeInfo))
    (teacher : Option String) (init : List NodeInfo × Option Nat)
    (hfalsy : ∀ p ∈ nodes_dict, some p.1 = teacher → p.2 = none)
    (hinit : init.2 = none) :
    (nodes_dict.foldl (known_nodes_step teacher) init).2 = none := by
  induction nodes_dict generalizing init with
  | nil => simpa using hinit
  | cons entry rest ih =>
      cases h2 : entry.2 with
      | none =>
          simp only [List.foldl, known_nodes_step, h2]
          exact ih init (fun p hp => hfalsy p (List.mem_cons_of_mem entry hp)) hinit
      | some nd =>
          have hne : ¬ (some entry.1 = teacher) := by
            intro hEq
            have := hfalsy entry (List.mem_cons_self entry rest) hEq
            rw [h2] at this
            exact Option.noConfusion this
          simp only [List.foldl, known_nodes_step, h2, if_neg hne]
          exact ih _ (fun p hp => hfalsy p (List.mem_cons_of_mem entry hp)) hinit

/-- Helper: every row rendered by `nodes_table_go` with no teacher index
is unhighlighted, and its cells come from the node list in order. -/
theorem nodes_table_go_no_teacher (parse : String → Option String)
    (nodes : List NodeInfo) (index : Nat) :
    ∀ row ∈ nodes_table_go parse none index nodes, row.highlighted = false := by
  induction nodes generalizing index with
  | nil => intro row hrow; cases hrow
  | cons n rest ih =>
      intro row hrow
      cases hrow with
      | head => rfl
      | tail _ h => exact ih (index + 1) row h

/-- Helper: mapping each row to its cells recovers the node list. -/
theorem nodes_table_go_cells (parse : String → Option String)
    (nodes : List NodeInfo) (teacher_index : Option Nat) (index : Nat) :
    (nodes_table_go parse teacher_index index nodes).map (fun r => r.cells) =
      nodes.map (generate_node_table_components parse) := by
  induction nodes generalizing index with
  | nil => rfl
  | cons n rest ih => simp [nodes_table_go, ih]

/-- C10: `known_nodes` renders one row per truthy entry of `nodes_dict`
(in insertion order, skipping falsy values), while the `Known Nodes`
heading counts every key including the skipped ones; and when every entry
keyed by the teacher checksum is falsy, no row is highlighted. -/
theorem known_nodes_count_and_rows (parse : String → Option String)
    (nodes_dict : List (String × Option NodeInfo)) (teacher : Option String) :
    (known_nodes parse nodes_dict teacher).heading_count = nodes_dict.length ∧
    (known_nodes parse nodes_dict teacher).rows.map (fun r => r.cells) =
      (nodes_dict.filterMap (fun p => p.2)).map (generate_node_table_components parse) ∧
    ((∀ p ∈ nodes_dict, some p.1 = teacher → p.2 = none) →
      ∀ row ∈ (known_nodes parse nodes_dict teacher).rows, row.highlighted = false) := by
  refine ⟨rfl, ?_, ?_⟩
  · have h1 := collect_nodes_fst_aux nodes_dict teacher ([], none)
    simp only [known_nodes, nodes_table]
    rw [nodes_table_go_cells]
    simp only [collect_nodes] at h1 ⊢
    rw [h1]
    simp
  · intro hfalsy row hrow
    have h2 := collect_nodes_snd_aux nodes_dict teacher ([], none) hfalsy rfl
    simp only [known_nodes, nodes_table, collect_nodes] at hrow
    simp only [collect_nodes] at h2
    rw [h2] at hrow
    exact nodes_table_go_no_teacher parse _ 0 row hrow

/-- Witness for C10: a concrete mapping with a falsy middle entry keyed by
the teacher checksum: three keys counted, two rows rendered, none
highlighted. -/
theorem known_nodes_count_and_rows_witness :
    (known_nodes (fun _ => none)
        [("a", some sampleNodeA), ("b", none), ("c", some sampleNodeC)]
        (some "b")).heading_count = 3 ∧
    (known_nodes (fun _ => none)
        [("a", some sampleNodeA), ("b", none), ("c", some sampleNodeC)]
        (some "b")).rows.map (fun r => r.cells) =
      [sampleNodeA, sampleNodeC].map (generate_node_table_components (fun _ => none)) ∧
    (∀ row ∈ (known_nodes (fun _ => none)
        [("a", some sampleNodeA), ("b", none), ("c", some sampleNodeC)]
        (some "b")).rows, row.highlighted = false) := by
  have h := known_nodes_count_and_rows (fun _ => none)
    [("a", some sampleNodeA), ("b", none), ("c", some sampleNodeC)] (some "b")
  refine ⟨h.1, by simpa using h.2.1, h.2.2 ?_⟩
  decide

/-!
The two auxiliary Flask endpoints of dashboard.py: `supply_information`
(lines 100-129) and `staker_information` (lines 131-173). Token amounts
are modelled as exact rationals; `NU.from_nunits` divides by 10^18 and
Python `round(x, 2)` rounds half-to-even at two decimals (no tie arises at
the inputs considered here). String formatting (`str(...)`,
`prettify_eth_amount`) is external presentation and the numeric value is
kept instead.
-/

/-- `NU.from_nunits` (nucypher token library, external): nunits to NU,
18 decimals. -/
def NU_from_nunits (nunits : ℚ) : ℚ := nunits / 10 ^ 18

/-- Python builtin `round` to an integer: round half to even. -/
def round_half_even (x : ℚ) : ℤ :=
  let f := x.floor
  let r := x - (f : ℚ)
  if r < 1 / 2 then f
  else if 1 / 2 < r then f + 1
  else if f % 2 = 0 then f else f + 1

/-- Python `round(x, 2)`: round half to even at two decimal places. -/
def round2 (x : ℚ) : ℚ := (round_half_even (x * 100) : ℚ) / 100

/-- The JSON document built by the `supply_information` endpoint
(dashboard.py lines 102-129), numeric values of its fields. -/
structure SupplyInformation where
  total_supply : ℚ
  initial_supply : ℚ
  staking_rewards_supply : ℚ
  investors : ℚ
  team : ℚ
  company : ℚ
  est_circulating_supply : ℚ
deriving DecidableEq

/-- `supply_information` (dashboard.py lines 102-129): overview values,
fixed allocation fractions of the initial supply (SAFT1+SAFT2 investors
0.319 + 0.08, team 0.106, company 0.2 — float constants modelled as exact
rationals), and the estimated circulating supply as initial supply minus
the three allocations. Inputs are `economics.total_supply` and
`economics.initial_supply` in nunits. -/
def supply_information (total_supply initial_supply : ℚ) : SupplyInformation :=
  let investor_supply := (319 / 1000 + 8 / 100) * initial_supply
  let team_supply := (106 / 1000) * initial_supply
  let nuco_supply := (2 / 10) * initial_supply
  { total_supply := round2 (NU_from_nunits total_supply)
    initial_supply := round2 (NU_from_nunits initial_supply)
    staking_rewards_supply := round2 (NU_from_nunits (total_supply - initial_supply))
    investors := round2 (NU_from_nunits investor_supply)
    team := round2 (NU_from_nunits team_supply)
    company := round2 (NU_from_nunits nuco_supply)
    est_circulating_supply :=
      round2 (NU_from_nunits
        (initial_supply - investor_supply - team_supply - nuco_supply)) }

/-- Helper: rounding an integer-valued rational is the identity. -/
theorem round_half_even_intCast (n : ℤ) : round_half_even (n : ℚ) = n := by
  unfold round_half_even
  rw [show ((n : ℚ)).floor = ⌊(n : ℚ)⌋ from rfl, Int.floor_intCast]
  norm_num

/-- C4: at `total_supply` = 1,000,000 and `initial_supply` = 400,000 token
units (10^24 and 4 * 10^23 nunits), the endpoint derives
`staking_rewards_supply` = 600,000 (total minus initial) and
`est_circulating_supply` = initial minus 0.399 of initial (investors)
minus 0.106 of initial (team) minus 0.2 of initial (company), which is
118,000 token units. -/
theorem supply_information_spec_values :
    (supply_information (10 ^ 24) (4 * 10 ^ 23)).staking_rewards_supply = 600000 ∧
    (supply_information (10 ^ 24) (4 * 10 ^ 23)).est_circulating_supply =
      round2 (NU_from_nunits
        ((4 * 10 ^ 23) - (399 / 1000) * (4 * 10 ^ 23) - (106 / 1000) * (4 * 10 ^ 23)
          - (2 / 10) * (4 * 10 ^ 23))) ∧
    (supply_information (10 ^ 24) (4 * 10 ^ 23)).est_circulating_supply = 118000 := by
  have h1 : ((10 : ℚ) ^ 24 - 4 * 10 ^ 23) / 10 ^ 18 * 100 = ((60000000 : ℤ) : ℚ) := by
    norm_num
  have h2 : ((4 : ℚ) * 10 ^ 23 - (319 / 1000 + 8 / 100) * (4 * 10 ^ 23)
      - 106 / 1000 * (4 * 10 ^ 23) - 2 / 10 * (4 * 10 ^ 23)) / 10 ^ 18 * 100 =
      ((11800000 : ℤ) : ℚ) := by
    norm_num
  have h3 : ((4 : ℚ) * 10 ^ 23 - 399 / 1000 * (4 * 10 ^ 23)
      - 106 / 1000 * (4 * 10 ^ 23) - 2 / 10 * (4 * 10 ^ 23)) / 10 ^ 18 * 100 =
      ((11800000 : ℤ) : ℚ) := by
    norm_num
  refine ⟨?_, ?_, ?_⟩
  · simp only [supply_information, NU_from_nunits, round2]
    rw [h1, round_half_even_intCast]
    norm_num
  · simp only [supply_information, NU_from_nunits, round2]
    rw [h2, h3]
  · simp only [supply_information, NU_from_nunits, round2]
    rw [h2, round_half_even_intCast]
    norm_num

/-- The per-staker values the blockchain-client collaborator (Staker,
StakingEscrowAgent, Nickname — external library objects, dashboard.py
lines 135-170) answers for one address. -/
structure StakerData where
  nickname : String
  owned_tokens : ℚ
  locked_current : ℚ
  locked_next : ℚ
  is_restaking : Bool
  is_winding_down : Bool
  is_taking_snapshots : Bool
  last_committed_period : ℤ
  current_period : ℤ
  worker_address : String
  policy_fee : ℚ
  min_fee_rate : ℚ
deriving DecidableEq

/-- The JSON document built by the `staker_information` endpoint
(dashboard.py lines 133-173). -/
structure StakerInformation where
  staker_address : String
  nickname : String
  owned_tokens : ℚ
  staked_current_period : ℚ
  staked_next_period : ℚ
  restake : Bool
  winddown : Bool
  snapshots : Bool
  missed_commitments : ℤ
  worker_address : String
  unclaimed_fees : ℚ
  min_fee_rate : ℚ
deriving DecidableEq

/-- `staker_information` (dashboard.py lines 133-173): every field is
computed from the address and the blockchain-client answers `d`;
`missed_commitments` is the current period minus the last committed
period. -/
def staker_information (staker_address : String) (d : StakerData) :
    StakerInformation :=
  { staker_address := staker_address
    nickname := d.nickname
    owned_tokens := round2 d.owned_tokens
    staked_current_period := round2 d.locked_current
    staked_next_period := round2 d.locked_next
    restake := d.is_restaking
    winddown := d.is_winding_down
    snapshots := d.is_taking_snapshots
    missed_commitments := d.current_period - d.last_committed_period
    worker_address := d.worker_address
    unclaimed_fees := d.policy_fee
    min_fee_rate := d.min_fee_rate }

/-- The server-side mutable state relevant to the cache bridge: the
`cached-crawler-stats` store. -/
structure ServerState where
  cached_crawler_stats : Option JsonText
deriving DecidableEq

/-- The `supply_information` Flask endpoint as a state transformer over
the server state: its body (dashboard.py lines 102-129) mentions only
`economics`, never the cached snapshot store. -/
def supply_information_endpoint (total_supply initial_supply : ℚ)
    (s : ServerState) : SupplyInformation × ServerState :=
  (supply_information total_supply initial_supply, s)

/-- The `staker_information` Flask endpoint as a state transformer over
the server state: its body (dashboard.py lines 133-173) mentions only the
address and the blockchain-client collaborators, never the cached
snapshot store. -/
def staker_information_endpoint (staker_address : String) (d : StakerData)
    (s : ServerState) : StakerInformation × ServerState :=
  (staker_information staker_address d, s)

/-- C8: the supply and staker endpoints read nothing from and write
nothing to the cached Snapshot store: invoked at any store state, each
leaves the state unchanged and returns a result that is the same at every
store state (a function of the blockchain-client inputs alone). -/
theorem auxiliary_endpoints_ignore_snapshot_store
    (total_supply initial_supply : ℚ) (staker_address : String)
    (d : StakerData) (s1 s2 : ServerState) :
    (supply_information_endpoint total_supply initial_supply s1).2 = s1 ∧
    (staker_information_endpoint staker_address d s1).2 = s1 ∧
    (supply_information_endpoint total_supply initial_supply s1).1 =
      (supply_information_endpoint total_supply initial_supply s2).1 ∧
    (staker_information_endpoint staker_address d s1).1 =
      (staker_information_endpoint staker_address d s2).1 :=
  ⟨rfl, rfl, rfl, rfl⟩
